import Mathlib

/-!
# Verification of the ASL sign-recognition model architecture (`src/model.py`)

Shallow embedding of the CNN + Transformer sequence-classification model.
Tensors are embedded as index-function matrices over `ℝ` (`Mat`), vectors as
`Vec`.  Machine floating point is idealised as real arithmetic; the dropout
random mask and all learned parameters appear as explicit function
parameters, so every layer is a pure function of (parameters, input, mode),
exactly as the computation graph is.

Each definition is a direct transliteration of the corresponding Python /
Keras construct in `src/model.py`; the doc comment of each definition names
its source.
-/

open Finset

/-! ## Matrices and vectors as index functions -/

/-- A real matrix with explicit row/column counts; `entry i j` outside the
range is irrelevant to any theorem below.  Models a rank-2 tensor slice
(one sequence: time × channels). -/
structure Mat where
  rows : ℕ
  cols : ℕ
  entry : ℕ → ℕ → ℝ

/-- A real vector with explicit length.  Models a rank-1 tensor. -/
structure Vec where
  len : ℕ
  entry : ℕ → ℝ

/-- Elementwise tensor addition (`a + b` on same-shape tensors; TensorFlow
rejects mismatched shapes, here every use below is on matching shapes). -/
noncomputable def Mat.add (A B : Mat) : Mat :=
  ⟨A.rows, A.cols, fun i j => A.entry i j + B.entry i j⟩

/-- Elementwise map over a tensor (activations such as `relu`). -/
noncomputable def Mat.emap (f : ℝ → ℝ) (A : Mat) : Mat :=
  ⟨A.rows, A.cols, fun i j => f (A.entry i j)⟩

/-! ## Positional encoding (`PositionalEncoding.call`, model.py lines 31-50)

The Python builds the `seq_length × d_model` matrix of angles
`positions / 10000 ** ((2 * (dimensions // 2)) / d_model)`, then takes
`tf.sin` of the even-indexed columns (`angles[:, 0::2]`), `tf.cos` of the
odd-indexed columns (`angles[:, 1::2]`), concatenates the two slices along
the channel axis (`tf.concat([sines, cosines], axis=-1)`), truncates to
`d_model` columns, and adds the result to the input. -/

/-- `angles[p, i] = p / 10000 ** ((2 * (i // 2)) / d_model)`
(model.py line 40; `//` is floor division, the exponent is real). -/
noncomputable def posAngle (dModel p i : ℕ) : ℝ :=
  (p : ℝ) / (10000 : ℝ) ^ (((2 * (i / 2) : ℕ) : ℝ) / (dModel : ℝ))

/-- The strided slice `l[0::2]`: elements at indices 0, 2, 4, …. -/
def everyOther {α : Type} : List α → List α
  | [] => []
  | [a] => [a]
  | a :: _ :: rest => a :: everyOther rest

/-- Row `p` of the positional-encoding matrix produced by
`PositionalEncoding.call` for channel width `dModel`:
`sin` of `angles[p, 0::2]` concatenated with `cos` of `angles[p, 1::2]`,
truncated to `dModel` entries (model.py lines 43-48).  Note the code
CONCATENATES the sine block before the cosine block, it does not
interleave them. -/
noncomputable def posEncodingRow (dModel p : ℕ) : List ℝ :=
  let angles := (List.range dModel).map (fun i => posAngle dModel p i)
  (((everyOther angles).map Real.sin)
    ++ ((everyOther (angles.drop 1)).map Real.cos)).take dModel

/-- Spec formula for the positional matrix (spec §4.1), stated for
comparison with `posEncodingRow`: `output[p,i] = sin(angle(p,i))` for even
`i` and `cos(angle(p,i))` for odd `i` — sines and cosines interleaved. -/
noncomputable def posEncodingSpecFormula (dModel p i : ℕ) : ℝ :=
  if i % 2 = 0 then Real.sin (posAngle dModel p i)
  else Real.cos (posAngle dModel p i)

/-- Entry `(p, i)` of the matrix the layer adds (0 beyond the row length,
never read in range). -/
noncomputable def peEntry (dModel p i : ℕ) : ℝ :=
  (posEncodingRow dModel p).getD i 0

/-- `PositionalEncoding.call inputs = inputs + pos_encoding` where the
added matrix is sized from the input's shape (model.py lines 31-50). -/
noncomputable def positionalEncodingCall (x : Mat) : Mat :=
  ⟨x.rows, x.cols, fun p i => x.entry p i + peEntry x.cols p i⟩

/-! ## C1 -/

/-- C1: the claimed formula (sines and cosines interleaved across
channels) does not match the code.  At `D = 4`, position `p = 0`, every
angle is `0`; the code's row is `[sin 0, sin 0, cos 0, cos 0] =
[0, 0, 1, 1]` (sine block concatenated before cosine block), while the
claimed interleaved row is `[sin 0, cos 0, sin 0, cos 0] = [0, 1, 0, 1]`.
They differ at channel `i = 1`: the code yields `0`, the claim `1`. -/
theorem C1_positional_encoding_not_interleaved :
    posEncodingRow 4 0 = [0, 0, 1, 1] ∧
    [posEncodingSpecFormula 4 0 0, posEncodingSpecFormula 4 0 1,
     posEncodingSpecFormula 4 0 2, posEncodingSpecFormula 4 0 3]
      = [0, 1, 0, 1] ∧
    (posEncodingRow 4 0).getD 1 0 ≠ posEncodingSpecFormula 4 0 1 := by
  have hangle : ∀ i : ℕ, posAngle 4 0 i = 0 := by
    intro i; simp [posAngle]
  have hrange : List.range 4 = [0, 1, 2, 3] := rfl
  have hrow : posEncodingRow 4 0 = [0, 0, 1, 1] := by
    simp only [posEncodingRow, hrange, List.map_cons, List.map_nil, hangle]
    simp [everyOther]
  refine ⟨hrow, ?_, ?_⟩
  · simp [posEncodingSpecFormula, hangle]
  · rw [hrow]
    simp [posEncodingSpecFormula, hangle]

/-! ## Core Keras layers used by the model -/

/-- `max(x, 0)` — the `relu` activation. -/
noncomputable def relu (x : ℝ) : ℝ := max x 0

/-- `layers.Dense(units)` applied position-wise to a sequence: row `t` of
the output is `x[t] · W + b`, a vector of length `units` (the layer's
kernel has shape `(x.cols, units)`). -/
noncomputable def dense (units : ℕ) (W : ℕ → ℕ → ℝ) (b : ℕ → ℝ) (x : Mat) : Mat :=
  ⟨x.rows, units, fun t j => (∑ k in range x.cols, x.entry t k * W k j) + b j⟩

/-- `layers.Dense(units)` on a single vector. -/
noncomputable def denseVec (units : ℕ) (W : ℕ → ℕ → ℝ) (b : ℕ → ℝ) (v : Vec) : Vec :=
  ⟨units, fun j => (∑ k in range v.len, v.entry k * W k j) + b j⟩

/-- Row-wise softmax: `exp(x[i,j]) / Σ_k exp(x[i,k])`. -/
noncomputable def softmaxRows (x : Mat) : Mat :=
  ⟨x.rows, x.cols, fun i j => Real.exp (x.entry i j) / ∑ k in range x.cols, Real.exp (x.entry i k)⟩

/-- Softmax of a vector — the `activation='softmax'` of the output layer. -/
noncomputable def softmaxVec (v : Vec) : Vec :=
  ⟨v.len, fun j => Real.exp (v.entry j) / ∑ k in range v.len, Real.exp (v.entry k)⟩

/-- `layers.Dropout(rate)`: in training mode, multiply by the random
0/1 keep-mask and rescale by `1/(1-rate)` (the mask is the layer's random
draw, passed in as an oracle); in inference mode (`training = false`) the
layer is the identity. -/
noncomputable def dropoutLayer (rate : ℝ) (mask : ℕ → ℕ → ℝ) (training : Bool) (x : Mat) : Mat :=
  if training then ⟨x.rows, x.cols, fun i j => x.entry i j * mask i j / (1 - rate)⟩ else x

/-- `layers.Dropout(rate)` on a vector. -/
noncomputable def dropoutVec (rate : ℝ) (mask : ℕ → ℝ) (training : Bool) (v : Vec) : Vec :=
  if training then ⟨v.len, fun j => v.entry j * mask j / (1 - rate)⟩ else v

/-- `layers.LayerNormalization(epsilon)`: per position `t`, normalise the
channel vector to zero mean and unit variance, then apply the learned
scale `g` and shift `s`. -/
noncomputable def layerNorm (g s : ℕ → ℝ) (eps : ℝ) (x : Mat) : Mat :=
  ⟨x.rows, x.cols, fun t c =>
    let mu := (∑ k in range x.cols, x.entry t k) / (x.cols : ℝ)
    let var := (∑ k in range x.cols, (x.entry t k - mu) ^ 2) / (x.cols : ℝ)
    g c * ((x.entry t c - mu) / Real.sqrt (var + eps)) + s c⟩

/-- `layers.BatchNormalization()`: per channel `c`, normalise by the
mode-selected mean/variance statistics (batch statistics in training,
running statistics in inference — both abstracted as the parameters
`mean`/`var`), then scale and shift. -/
noncomputable def batchNorm (g s mean var : ℕ → ℝ) (eps : ℝ) (x : Mat) : Mat :=
  ⟨x.rows, x.cols, fun t c =>
    g c * ((x.entry t c - mean c) / Real.sqrt (var c + eps)) + s c⟩

/-- Zero-padded read of a sequence at (possibly out-of-range) time `t`
— the boundary padding of `padding='same'`. -/
noncomputable def padEntry (x : Mat) (t : ℤ) (c : ℕ) : ℝ :=
  if 0 ≤ t ∧ t < (x.rows : ℤ) then x.entry t.toNat c else 0

/-- `layers.Conv1D(filters, kernel_size=3, activation='relu',
padding='same')` (model.py lines 157-173): stride-1 temporal convolution
with kernel width 3, zero boundary padding (so the output keeps the input
length), followed by the `relu` activation baked into the layer. -/
noncomputable def conv1dSame (filters : ℕ) (W : ℕ → ℕ → ℕ → ℝ) (b : ℕ → ℝ) (x : Mat) : Mat :=
  ⟨x.rows, filters, fun t f =>
    relu ((∑ k in range 3, ∑ c in range x.cols,
      W k c f * padEntry x ((t : ℤ) + (k : ℤ) - 1) c) + b f)⟩

/-- `layers.MaxPooling1D(pool_size=2)` (model.py line 177): window 2,
stride 2, valid padding.  The framework's output length is
`(L - 2) / 2 + 1` when `L ≥ 2` and `0` otherwise; entry `(t, c)` is the
maximum of the two pooled frames. -/
noncomputable def maxPool1d (x : Mat) : Mat :=
  ⟨if 2 ≤ x.rows then (x.rows - 2) / 2 + 1 else 0, x.cols,
   fun t c => max (x.entry (2 * t) c) (x.entry (2 * t + 1) c)⟩

/-- `layers.GlobalAveragePooling1D()` (model.py line 209): mean over the
time axis, one value per channel. -/
noncomputable def globalAvgPool (x : Mat) : Vec :=
  ⟨x.cols, fun c => (∑ t in range x.rows, x.entry t c) / (x.rows : ℝ)⟩

/-! ## Multi-head self-attention (`layers.MultiHeadAttention`) -/

/-- Learned projections of one attention head: query/key/value kernels
(shape `embed_dim × key_dim`) and biases. -/
structure HeadParams where
  wq : ℕ → ℕ → ℝ
  bq : ℕ → ℝ
  wk : ℕ → ℕ → ℝ
  bk : ℕ → ℝ
  wv : ℕ → ℕ → ℝ
  bv : ℕ → ℝ

/-- Parameters of `layers.MultiHeadAttention(num_heads, key_dim)`:
per-head projections, plus the output projection back to the query's
channel width. -/
structure MHAParams where
  numHeads : ℕ
  keyDim : ℕ
  head : ℕ → HeadParams
  wo : ℕ → ℕ → ℝ
  bo : ℕ → ℝ

/-- Scaled dot-product scores `Q Kᵀ / √key_dim`. -/
noncomputable def attnScores (keyDim : ℕ) (Q K : Mat) : Mat :=
  ⟨Q.rows, K.rows, fun i j =>
    (∑ k in range Q.cols, Q.entry i k * K.entry j k) / Real.sqrt (keyDim : ℝ)⟩

/-- Apply attention weights `A` (rows are softmax distributions over the
full, unmasked sequence) to the value rows `V`. -/
noncomputable def attnApply (A V : Mat) : Mat :=
  ⟨A.rows, V.cols, fun i j => ∑ t in range A.cols, A.entry i t * V.entry t j⟩

/-- `self.attention(inputs, inputs)` (model.py line 97): for each head,
project the input into a `key_dim`-wide subspace, attend with scaled
dot-product softmax over the whole sequence, combine values; concatenate
the heads and project back to the input's channel width (Keras's default
output size is the query's last dimension). -/
noncomputable def mhaSelf (p : MHAParams) (x : Mat) : Mat :=
  let headOut := fun h =>
    let hp := p.head h
    let Q := dense p.keyDim hp.wq hp.bq x
    let K := dense p.keyDim hp.wk hp.bk x
    let V := dense p.keyDim hp.wv hp.bv x
    attnApply (softmaxRows (attnScores p.keyDim Q K)) V
  let concat : Mat :=
    ⟨x.rows, p.numHeads * p.keyDim, fun i j => (headOut (j / p.keyDim)).entry i (j % p.keyDim)⟩
  dense x.cols p.wo p.bo concat

/-! ## Transformer encoder block (`TransformerBlock`, model.py lines 60-114) -/

/-- Learned parameters of one `TransformerBlock`: the attention layer, the
two feed-forward kernels (`Dense(ff_dim, relu)` then `Dense(embed_dim)`),
and the two layer-normalisation scale/shift pairs. -/
structure TBParams where
  embedDim : ℕ
  numHeads : ℕ
  ffDim : ℕ
  dropoutRate : ℝ
  mha : MHAParams
  w1 : ℕ → ℕ → ℝ
  b1 : ℕ → ℝ
  w2 : ℕ → ℕ → ℝ
  b2 : ℕ → ℝ
  ln1g : ℕ → ℝ
  ln1s : ℕ → ℝ
  ln2g : ℕ → ℝ
  ln2s : ℕ → ℝ

/-- The random keep-masks drawn by the block's two `Dropout` layers. -/
structure DropoutMasks where
  m1 : ℕ → ℕ → ℝ
  m2 : ℕ → ℕ → ℝ

/-- `TransformerBlock.call(inputs, training)` (model.py lines 95-104):
self-attention, dropout, residual add + layer norm, position-wise
feed-forward (`Dense(ff_dim, relu)` then `Dense(embed_dim)`), dropout,
residual add + layer norm. -/
noncomputable def transformerBlockCall (p : TBParams) (m : DropoutMasks) (inputs : Mat)
    (training : Bool) : Mat :=
  let attentionOutput := mhaSelf p.mha inputs
  let attentionOutput := dropoutLayer p.dropoutRate m.m1 training attentionOutput
  let x := layerNorm p.ln1g p.ln1s (1e-6) (inputs.add attentionOutput)
  let ffnOutput := dense p.embedDim p.w2 p.b2 ((dense p.ffDim p.w1 p.b1 x).emap relu)
  let ffnOutput := dropoutLayer p.dropoutRate m.m2 training ffnOutput
  layerNorm p.ln2g p.ln2s (1e-6) (x.add ffnOutput)

/-- The Python signature `def call(self, inputs, training=False)` defaults
the mode flag to `False`: a call that omits `training` evaluates this. -/
noncomputable def transformerBlockCallDefault (p : TBParams) (m : DropoutMasks)
    (inputs : Mat) : Mat :=
  transformerBlockCall p m inputs false

/-! ## Construction-time behaviour -/

/-- The exceptions relevant to construction and evaluation.
`configError` and `shapeMismatchError` are the spec's names (§7) for
construction-validation and input-shape failures; `indexError` and
`zeroDivisionError` are Python's exceptions for out-of-range list
indexing and division by zero. -/
inductive PyError where
  | configError
  | shapeMismatchError
  | indexError
  | zeroDivisionError
deriving DecidableEq

/-- The configuration record a constructed `TransformerBlock` holds
(model.py lines 68-93): the stored hyper-parameters plus the `key_dim`
passed to `layers.MultiHeadAttention`, computed by floor division
`embed_dim // num_heads`. -/
structure TransformerBlockCfg where
  embedDim : ℕ
  numHeads : ℕ
  ffDim : ℕ
  dropoutRate : ℝ
  keyDim : ℕ

/-- `TransformerBlock.__init__(embed_dim, num_heads, ff_dim, dropout_rate)`
(model.py lines 68-93).  The body performs no validation: it stores the
arguments and builds the sublayers with `key_dim = embed_dim // num_heads`.
The only expression that can raise is the floor division itself, which in
Python raises `ZeroDivisionError` when `num_heads = 0`; no divisibility
check exists and nothing can raise a `ConfigError`. -/
def transformerBlockInit (embedDim numHeads ffDim : ℕ) (dropoutRate : ℝ) :
    Except PyError TransformerBlockCfg :=
  if numHeads = 0 then .error .zeroDivisionError
  else .ok ⟨embedDim, numHeads, ffDim, dropoutRate, embedDim / numHeads⟩

/-- The configuration a successfully built model is bound to. -/
structure ModelCfg where
  numFrames : ℕ
  numLandmarks : ℕ
  numClasses : ℕ
  cnnFilters : List ℕ
  transformerHeads : ℕ
  transformerDim : ℕ
  ffDim : ℕ
  dropoutRate : ℝ
  tb : TransformerBlockCfg

/-- `build_asl_model` (model.py lines 121-224), construction-time control
flow.  The function wires the layer pipeline and performs no validation of
its own: the only repository-level expressions that can raise during
construction are the list indexings `cnn_filters[0]` / `cnn_filters[1]`
(Python `IndexError` when the list is shorter than 2) and the floor
division inside `TransformerBlock.__init__`.  Internal range checks of the
underlying layer library are outside the repository and not modelled;
`dropout_rate` and `num_classes` are passed through unexamined. -/
def build_asl_model (numFrames numLandmarks numClasses : ℕ) (cnnFilters : List ℕ)
    (transformerHeads transformerDim ffDim : ℕ) (dropoutRate : ℝ) :
    Except PyError ModelCfg :=
  match cnnFilters[0]?, cnnFilters[1]? with
  | some _, some _ =>
      (transformerBlockInit transformerDim transformerHeads ffDim dropoutRate).map
        (fun tb => ⟨numFrames, numLandmarks, numClasses, cnnFilters,
                    transformerHeads, transformerDim, ffDim, dropoutRate, tb⟩)
  | _, _ => .error .indexError

/-! ## The forward pipeline -/

/-- All learned parameters and dropout draws of one built model, layer by
layer in pipeline order (model.py lines 148-222). -/
structure ModelParams where
  conv1W : ℕ → ℕ → ℕ → ℝ
  conv1b : ℕ → ℝ
  bn1g : ℕ → ℝ
  bn1s : ℕ → ℝ
  bn1mean : ℕ → ℝ
  bn1var : ℕ → ℝ
  conv2W : ℕ → ℕ → ℕ → ℝ
  conv2b : ℕ → ℝ
  bn2g : ℕ → ℝ
  bn2s : ℕ → ℝ
  bn2mean : ℕ → ℝ
  bn2var : ℕ → ℝ
  projW : ℕ → ℕ → ℝ
  projb : ℕ → ℝ
  posMask : ℕ → ℕ → ℝ
  tbp : TBParams
  tbMasks : DropoutMasks
  d1W : ℕ → ℕ → ℝ
  d1b : ℕ → ℝ
  d1mask : ℕ → ℝ
  d2W : ℕ → ℕ → ℝ
  d2b : ℕ → ℝ
  d2mask : ℕ → ℝ
  outW : ℕ → ℕ → ℝ
  outb : ℕ → ℝ

/-- The CNN block of `build_asl_model` (model.py lines 154-177):
`Conv1D(cnn_filters[0], 3, relu, same)` → `BatchNormalization` →
`Conv1D(cnn_filters[1], 3, relu, same)` → `BatchNormalization` →
`MaxPooling1D(pool_size=2)`. -/
noncomputable def localFeatureExtractor (f0 f1 : ℕ) (pr : ModelParams) (x : Mat) : Mat :=
  maxPool1d
    (batchNorm pr.bn2g pr.bn2s pr.bn2mean pr.bn2var (1e-3)
      (conv1dSame f1 pr.conv2W pr.conv2b
        (batchNorm pr.bn1g pr.bn1s pr.bn1mean pr.bn1var (1e-3)
          (conv1dSame f0 pr.conv1W pr.conv1b x))))

/-- The logits of the output layer on one sequence: everything of
`build_asl_model`'s pipeline before the final softmax (model.py lines
148-219) — CNN block, projection `Dense(transformer_dim)`, positional
encoding, dropout, transformer block, global average pooling,
`Dense(256, relu)` + dropout, `Dense(128, relu)` + dropout, and the
kernel of the `Dense(num_classes)` output layer. -/
noncomputable def aslLogits (cfg : ModelCfg) (pr : ModelParams) (training : Bool)
    (x : Mat) : Vec :=
  let c := localFeatureExtractor (cfg.cnnFilters.getD 0 0) (cfg.cnnFilters.getD 1 0) pr x
  let p := dense cfg.transformerDim pr.projW pr.projb c
  let p := positionalEncodingCall p
  let p := dropoutLayer cfg.dropoutRate pr.posMask training p
  let t := transformerBlockCall pr.tbp pr.tbMasks p training
  let g := globalAvgPool t
  let d1 := dropoutVec cfg.dropoutRate pr.d1mask training
    ⟨256, fun j => relu ((denseVec 256 pr.d1W pr.d1b g).entry j)⟩
  let d2 := dropoutVec cfg.dropoutRate pr.d2mask training
    ⟨128, fun j => relu ((denseVec 128 pr.d2W pr.d2b d1).entry j)⟩
  denseVec cfg.numClasses pr.outW pr.outb d2

/-- Forward evaluation of the built model on one sequence (model.py lines
148-222): the pipeline followed by the output layer's
`activation='softmax'`. -/
noncomputable def aslForward (cfg : ModelCfg) (pr : ModelParams) (training : Bool)
    (x : Mat) : Vec :=
  softmaxVec (aslLogits cfg pr training x)

/-- Batched forward evaluation.  The functional model's `Input` layer
(model.py line 149) fixes the declared per-example shape to
`(num_frames, num_landmarks)`; the framework validates every submitted
batch against that declared shape and raises before running any layer
when it differs (the spec's `ShapeMismatchError`, §7).  On a well-shaped
batch each sequence is processed independently. -/
noncomputable def modelPredict (cfg : ModelCfg) (pr : ModelParams) (training : Bool)
    (batch : List Mat) : Except PyError (List Vec) :=
  if batch.all (fun x => x.rows == cfg.numFrames && x.cols == cfg.numLandmarks)
  then .ok (batch.map (aslForward cfg pr training))
  else .error .shapeMismatchError

/-! ## Compilation declaration (`compile_model`, model.py lines 231-250) -/

/-- The optimizer declared to the training harness. -/
inductive OptimizerSpec where
  | adam (learningRate : ℝ)

/-- The loss declared to the training harness. -/
inductive LossSpec where
  | categoricalCrossentropy

/-- A declared metric: `'accuracy'` (top-1 categorical accuracy under a
categorical-cross-entropy loss) or `TopKCategoricalAccuracy(k)`. -/
inductive MetricSpec where
  | categoricalAccuracy
  | topKCategoricalAccuracy (k : ℕ)

/-- What `model.compile(...)` declares. -/
structure CompileSpec where
  optimizer : OptimizerSpec
  loss : LossSpec
  metrics : List MetricSpec

/-- `compile_model(model, learning_rate)` (model.py lines 231-250):
`Adam(learning_rate)`, `loss='categorical_crossentropy'`, and the metric
list `['accuracy', TopKCategoricalAccuracy(k=5)]`. -/
def compile_model (learningRate : ℝ) : CompileSpec :=
  ⟨.adam learningRate, .categoricalCrossentropy,
   [.categoricalAccuracy, .topKCategoricalAccuracy 5]⟩

/-! ## Concrete instances for evaluation -/

/-- An all-zero attention head. -/
noncomputable def zeroHead : HeadParams :=
  ⟨fun _ _ => 0, fun _ => 0, fun _ _ => 0, fun _ => 0, fun _ _ => 0, fun _ => 0⟩

/-- Default attention parameters: 4 heads of key width `128 // 4 = 32`. -/
noncomputable def zeroMHA : MHAParams :=
  ⟨4, 32, fun _ => zeroHead, fun _ _ => 0, fun _ => 0⟩

/-- A `TransformerBlock(128, 4, 256, 0.3)` with zero weights and unit
layer-norm scales. -/
noncomputable def zeroTB : TBParams :=
  ⟨128, 4, 256, 3 / 10, zeroMHA,
   fun _ _ => 0, fun _ => 0, fun _ _ => 0, fun _ => 0,
   fun _ => 1, fun _ => 0, fun _ => 1, fun _ => 0⟩

/-- All-ones keep-masks (nothing dropped). -/
noncomputable def oneMasks : DropoutMasks := ⟨fun _ _ => 1, fun _ _ => 1⟩

/-- A full parameter bundle with zero weights. -/
noncomputable def zeroModelParams : ModelParams :=
  ⟨fun _ _ _ => 0, fun _ => 0,
   fun _ => 1, fun _ => 0, fun _ => 0, fun _ => 1,
   fun _ _ _ => 0, fun _ => 0,
   fun _ => 1, fun _ => 0, fun _ => 0, fun _ => 1,
   fun _ _ => 0, fun _ => 0,
   fun _ _ => 1,
   zeroTB, oneMasks,
   fun _ _ => 0, fun _ => 0, fun _ => 1,
   fun _ _ => 0, fun _ => 0, fun _ => 1,
   fun _ _ => 0, fun _ => 0⟩

/-- The default configuration of `build_asl_model` (model.py lines
121-129). -/
noncomputable def cfgDefault : ModelCfg :=
  ⟨30, 63, 100, [64, 128], 4, 128, 256, 3 / 10, ⟨128, 4, 256, 3 / 10, 32⟩⟩

/-- A well-shaped all-zero input sequence (30 frames × 63 landmarks). -/
noncomputable def zmat : Mat := ⟨30, 63, fun _ _ => 0⟩

/-- A sequence with landmark width 60 instead of 63. -/
noncomputable def badMat : Mat := ⟨30, 60, fun _ _ => 0⟩

/-- A 15 × 128 zero sequence (the transformer block's input shape under
the default configuration). -/
noncomputable def mat15x128 : Mat := ⟨15, 128, fun _ _ => 0⟩

/-- A 15 × 128 sequence with distinct entries. -/
noncomputable def mat15x128b : Mat := ⟨15, 128, fun i j => (i : ℝ) + (j : ℝ)⟩

/-! ## Softmax facts -/

/-- Every softmax coordinate over a nonempty index range lies in `[0, 1]`,
and the coordinates sum to exactly 1. -/
theorem softmaxVec_mem_unit (v : Vec) (h : 0 < v.len) :
    (∀ j < v.len, 0 ≤ (softmaxVec v).entry j ∧ (softmaxVec v).entry j ≤ 1) ∧
    (∑ j in range v.len, (softmaxVec v).entry j) = 1 := by
  have hS : 0 < ∑ k in range v.len, Real.exp (v.entry k) :=
    Finset.sum_pos (fun k _ => Real.exp_pos _) (Finset.nonempty_range_iff.mpr h.ne')
  constructor
  · intro j hj
    constructor
    · exact div_nonneg (Real.exp_pos _).le hS.le
    · show Real.exp (v.entry j) / _ ≤ 1
      rw [div_le_one hS]
      exact Finset.single_le_sum (fun i _ => (Real.exp_pos (v.entry i)).le)
        (Finset.mem_range.mpr hj)
  · show (∑ j in range v.len, Real.exp (v.entry j) / _) = 1
    rw [← Finset.sum_div, div_self hS.ne']

/-! ## C2 -/

/-- C2 counterexample: constructing the attention block — and the whole
model — with `embedding_dim = 128`, `attention_heads = 5` (`128 % 5 ≠ 0`)
does NOT raise `ConfigError`: construction succeeds, with the per-head key
width silently floored to `128 // 5 = 25`. -/
theorem C2_counterexample_no_configerror :
    transformerBlockInit 128 5 256 (3 / 10) = .ok ⟨128, 5, 256, 3 / 10, 25⟩ ∧
    build_asl_model 30 63 100 [64, 128] 5 128 256 (3 / 10) =
      .ok ⟨30, 63, 100, [64, 128], 5, 128, 256, 3 / 10, ⟨128, 5, 256, 3 / 10, 25⟩⟩ :=
  ⟨rfl, rfl⟩

/-- C2 amended: `TransformerBlock.__init__` performs no divisibility
validation.  For every `num_heads ≠ 0` it succeeds, storing
`key_dim = embed_dim // num_heads` (floor division); no `ConfigError`
exists in the code. -/
theorem C2_construction_always_succeeds (D H F : ℕ) (r : ℝ) (h : H ≠ 0) :
    transformerBlockInit D H F r = .ok ⟨D, H, F, r, D / H⟩ := by
  simp [transformerBlockInit, h]

/-- Witness for `C2_construction_always_succeeds` at the claim's concrete
configuration `(128, 5)`. -/
theorem C2_construction_always_succeeds_witness :
    (5 : ℕ) ≠ 0 ∧
    transformerBlockInit 128 5 256 (3 / 10) = .ok ⟨128, 5, 256, 3 / 10, 128 / 5⟩ :=
  ⟨by decide, C2_construction_always_succeeds 128 5 256 (3 / 10) (by decide)⟩

/-! ## C3 -/

/-- C3 counterexample: `build_asl_model` does not validate the
Configuration invariants.  With an empty `cnn_filters` list it fails with
Python's `IndexError` (from `cnn_filters[0]`), not with `ConfigError`; and
with `dropout_rate = 1` (outside `[0, 1)`) it succeeds outright. -/
theorem C3_counterexample_no_validation :
    build_asl_model 30 63 100 [] 4 128 256 (3 / 10) = .error .indexError ∧
    PyError.indexError ≠ PyError.configError ∧
    build_asl_model 30 63 100 [64, 128] 4 128 256 1 =
      .ok ⟨30, 63, 100, [64, 128], 4, 128, 256, 1, ⟨128, 4, 256, 1, 32⟩⟩ :=
  ⟨rfl, by decide, rfl⟩

/-- C3 amended: model construction never raises `ConfigError` for any
argument values (the name does not occur in the code); an empty
`cnn_filter_widths` list makes construction fail, but with `IndexError`
from the list indexing `cnn_filters[0]`. -/
theorem C3_build_never_configerror (nf nl nc : ℕ) (fs : List ℕ) (h d f : ℕ) (r : ℝ) :
    build_asl_model nf nl nc fs h d f r ≠ .error .configError ∧
    (fs = [] → build_asl_model nf nl nc fs h d f r = .error .indexError) := by
  constructor
  · match fs with
    | [] => simp [build_asl_model]
    | [a] => simp [build_asl_model]
    | a :: b :: t =>
      by_cases hh : h = 0 <;>
        simp [build_asl_model, transformerBlockInit, hh, Except.map]
  · intro hfs
    subst hfs
    rfl

/-- Witness for `C3_build_never_configerror` at the empty filter list. -/
theorem C3_build_never_configerror_witness :
    build_asl_model 30 63 100 [] 4 128 256 (3 / 10) ≠ .error .configError ∧
    build_asl_model 30 63 100 [] 4 128 256 (3 / 10) = .error .indexError :=
  ⟨(C3_build_never_configerror 30 63 100 [] 4 128 256 (3 / 10)).1,
   (C3_build_never_configerror 30 63 100 [] 4 128 256 (3 / 10)).2 rfl⟩

/-! ## C4 -/

/-- C4: on every well-shaped batch, forward evaluation returns one
probability vector per input sequence; each has length `num_classes`,
entries in `[0, 1]`, and entries summing to 1 within `1e-5` (the sum is
exactly 1 in real arithmetic). -/
theorem C4_forward_returns_distributions (cfg : ModelCfg) (pr : ModelParams)
    (training : Bool) (batch : List Mat) (hc : 0 < cfg.numClasses)
    (hshape : ∀ x ∈ batch, x.rows = cfg.numFrames ∧ x.cols = cfg.numLandmarks) :
    ∃ out, modelPredict cfg pr training batch = .ok out ∧
      out.length = batch.length ∧
      ∀ y ∈ out, y.len = cfg.numClasses ∧
        (∀ j < cfg.numClasses, 0 ≤ y.entry j ∧ y.entry j ≤ 1) ∧
        |(∑ j in range cfg.numClasses, y.entry j) - 1| ≤ 1e-5 := by
  have hall : batch.all
      (fun z => z.rows == cfg.numFrames && z.cols == cfg.numLandmarks) = true := by
    apply List.all_eq_true.mpr
    intro z hz
    have hzz := hshape z hz
    simp [hzz.1, hzz.2]
  refine ⟨batch.map (aslForward cfg pr training), by simp [modelPredict, hall], by simp, ?_⟩
  intro y hy
  rcases List.mem_map.mp hy with ⟨x, _, hxy⟩
  subst hxy
  have hlen : (aslLogits cfg pr training x).len = cfg.numClasses := rfl
  have hc' : 0 < (aslLogits cfg pr training x).len := by rw [hlen]; exact hc
  have hmain := softmaxVec_mem_unit (aslLogits cfg pr training x) hc'
  refine ⟨rfl, ?_, ?_⟩
  · intro j hj
    exact hmain.1 j (by rw [hlen]; exact hj)
  · have hsum : (∑ j in range cfg.numClasses,
        (aslForward cfg pr training x).entry j) = 1 := hmain.2
    rw [hsum]
    norm_num

/-- Witness for `C4_forward_returns_distributions`: the default
configuration on a singleton all-zero batch. -/
theorem C4_forward_returns_distributions_witness :
    0 < cfgDefault.numClasses ∧
    ∃ out, modelPredict cfgDefault zeroModelParams false [zmat] = .ok out ∧
      out.length = 1 ∧
      ∀ y ∈ out, y.len = cfgDefault.numClasses ∧
        (∀ j < cfgDefault.numClasses, 0 ≤ y.entry j ∧ y.entry j ≤ 1) ∧
        |(∑ j in range cfgDefault.numClasses, y.entry j) - 1| ≤ 1e-5 :=
  ⟨by decide,
   C4_forward_returns_distributions cfgDefault zeroModelParams false [zmat] (by decide)
    (by
      intro x hx
      rw [List.mem_singleton] at hx
      subst hx
      exact ⟨rfl, rfl⟩)⟩

/-! ## C5 -/

/-- C5: `TransformerBlock.call` is shape-preserving in both modes: for an
input of shape `(L, D)` with `D` the block's `embed_dim`, the attention
sublayer, the feed-forward sublayer and the whole block all produce shape
`(L, D)`. -/
theorem C5_transformer_block_shape_preserving (p : TBParams) (m : DropoutMasks)
    (x : Mat) (training : Bool) (h : x.cols = p.embedDim) :
    (transformerBlockCall p m x training).rows = x.rows ∧
    (transformerBlockCall p m x training).cols = x.cols ∧
    (mhaSelf p.mha x).rows = x.rows ∧ (mhaSelf p.mha x).cols = x.cols ∧
    (dense p.embedDim p.w2 p.b2 ((dense p.ffDim p.w1 p.b1 x).emap relu)).cols = x.cols :=
  ⟨rfl, rfl, rfl, rfl, h.symm⟩

/-- Witness for `C5_transformer_block_shape_preserving`: a 15 × 128 input
to a 128-wide block, in training and inference mode. -/
theorem C5_transformer_block_shape_preserving_witness :
    ((transformerBlockCall zeroTB oneMasks mat15x128 false).rows = 15 ∧
     (transformerBlockCall zeroTB oneMasks mat15x128 false).cols = 128) ∧
    ((transformerBlockCall zeroTB oneMasks mat15x128 true).rows = 15 ∧
     (transformerBlockCall zeroTB oneMasks mat15x128 true).cols = 128) :=
  ⟨⟨(C5_transformer_block_shape_preserving zeroTB oneMasks mat15x128 false rfl).1,
    (C5_transformer_block_shape_preserving zeroTB oneMasks mat15x128 false rfl).2.1⟩,
   ⟨(C5_transformer_block_shape_preserving zeroTB oneMasks mat15x128 true rfl).1,
    (C5_transformer_block_shape_preserving zeroTB oneMasks mat15x128 true rfl).2.1⟩⟩

/-! ## C6 -/

/-- C6: each `same`-padded width-3 convolution stage preserves the
sequence length; the window-2 max-pooling stage maps length `n` to
`⌊n/2⌋` (the framework's `(n-2)/2 + 1` for `n ≥ 2`, `0` below, equals
`⌊n/2⌋` for every `n`); the composed extractor maps `n` to `⌊n/2⌋` and,
in particular, 30 to 15. -/
theorem C6_extractor_lengths (pr : ModelParams) (f0 f1 cf : ℕ)
    (cW : ℕ → ℕ → ℕ → ℝ) (cb : ℕ → ℝ) (x y : Mat) :
    (conv1dSame cf cW cb x).rows = x.rows ∧
    (maxPool1d y).rows = y.rows / 2 ∧
    (localFeatureExtractor f0 f1 pr x).rows = x.rows / 2 ∧
    (localFeatureExtractor f0 f1 pr ⟨30, 63, fun _ _ => 0⟩).rows = 15 := by
  refine ⟨rfl, ?_, ?_, ?_⟩
  · show (if 2 ≤ y.rows then (y.rows - 2) / 2 + 1 else 0) = y.rows / 2
    split <;> omega
  · show (if 2 ≤ x.rows then (x.rows - 2) / 2 + 1 else 0) = x.rows / 2
    split <;> omega
  · show (if 2 ≤ (30 : ℕ) then (30 - 2) / 2 + 1 else 0) = 15
    decide

/-! ## C7 -/

/-- C7: the positional encoder is deterministic and stateless — the
matrix `PositionalEncoding.call` adds (output minus input, entrywise) is
the same for any two inputs of the same shape, whatever their entries;
it depends on nothing but `(L, D)`. -/
theorem C7_positional_encoding_deterministic (x y : Mat)
    (hr : x.rows = y.rows) (hc : x.cols = y.cols) :
    (positionalEncodingCall x).rows = x.rows ∧
    (positionalEncodingCall x).cols = x.cols ∧
    ∀ p i, (positionalEncodingCall x).entry p i - x.entry p i
         = (positionalEncodingCall y).entry p i - y.entry p i := by
  refine ⟨rfl, rfl, fun p i => ?_⟩
  simp [positionalEncodingCall, hc]

/-- Witness for `C7_positional_encoding_deterministic`: two 15 × 128
inputs with different entries receive the same additive term at
position 0, channel 1. -/
theorem C7_positional_encoding_deterministic_witness :
    (positionalEncodingCall mat15x128).entry 0 1 - mat15x128.entry 0 1
      = (positionalEncodingCall mat15x128b).entry 0 1 - mat15x128b.entry 0 1 :=
  (C7_positional_encoding_deterministic mat15x128 mat15x128b rfl rfl).2.2 0 1

/-! ## C8 -/

/-- C8: a batch containing any sequence whose landmark width or frame
count differs from the configured shape makes forward evaluation fail
with the shape-mismatch error, producing no output. -/
theorem C8_shape_mismatch_rejected (cfg : ModelCfg) (pr : ModelParams)
    (training : Bool) (batch : List Mat) (x : Mat) (hx : x ∈ batch)
    (hbad : x.cols ≠ cfg.numLandmarks ∨ x.rows ≠ cfg.numFrames) :
    modelPredict cfg pr training batch = .error .shapeMismatchError := by
  have hall : batch.all
      (fun z => z.rows == cfg.numFrames && z.cols == cfg.numLandmarks) = false := by
    rw [← Bool.not_eq_true]
    intro hall
    have hz := List.all_eq_true.mp hall x hx
    simp only [Bool.and_eq_true, beq_iff_eq] at hz
    rcases hbad with hb | hb
    · exact hb hz.2
    · exact hb hz.1
  simp [modelPredict, hall]

/-- Witness for `C8_shape_mismatch_rejected`: landmark width 60 against
`num_landmarks = 63` (the spec's scenario 3). -/
theorem C8_shape_mismatch_rejected_witness :
    modelPredict cfgDefault zeroModelParams false [badMat]
      = .error .shapeMismatchError :=
  C8_shape_mismatch_rejected cfgDefault zeroModelParams false [badMat] badMat
    (List.mem_singleton.mpr rfl) (Or.inl (by decide))

/-! ## C9 -/

/-- C9: `compile_model` declares exactly an Adam optimizer stepped by the
given learning rate, categorical cross-entropy loss, and the two metrics
top-1 categorical accuracy and top-5 categorical accuracy. -/
theorem C9_compile_declarations (lr : ℝ) :
    (compile_model lr).optimizer = .adam lr ∧
    (compile_model lr).loss = .categoricalCrossentropy ∧
    (compile_model lr).metrics
      = [.categoricalAccuracy, .topKCategoricalAccuracy 5] ∧
    (compile_model lr).metrics.length = 2 :=
  ⟨rfl, rfl, rfl, rfl⟩

/-! ## C10 -/

/-- C10: omitting the mode flag defaults `TransformerBlock.call` to
inference behaviour: the defaulted call equals the explicit
`training = false` call, every dropout application at `training = false`
is the identity, and consequently the inference-mode result does not
depend on the dropout masks at all. -/
theorem C10_default_mode_is_inference (p : TBParams) (m mAlt : DropoutMasks)
    (x : Mat) (rate : ℝ) (mask : ℕ → ℕ → ℝ) :
    transformerBlockCallDefault p m x = transformerBlockCall p m x false ∧
    dropoutLayer rate mask false x = x ∧
    transformerBlockCall p m x false = transformerBlockCall p mAlt x false :=
  ⟨rfl, rfl, rfl⟩
